import Mathlib

/-!
# Face Attendance System: auto-dismiss of flash alerts

Shallow embedding of `static/js/main.js`:

    document.addEventListener('DOMContentLoaded', () => {
      document.querySelectorAll('.alert.alert-dismissible').forEach(el => {
        setTimeout(() => {
          const bsAlert = bootstrap.Alert.getOrCreateInstance(el);
          bsAlert.close();
        }, 5000);
      });
    });

The script has two pieces of code of its own: the body of the `DOMContentLoaded`
listener (`armAutoDismiss`) and the body of the timer callback (`timerCallback`).
Everything else is the host: the document tree, the timer table of the scheduler,
the clock, and the global `bootstrap` with its `Alert` widget class.  The host is
modelled as explicit state (`World`) and the widget class as a parameter
(`AlertApi`), so that the theorems hold for every widget implementation, including
an absent or a throwing one.
-/

namespace FaceAttendance

/-! ## Data model -/

/-- Identity of a DOM element (the object reference the script holds in `el`). -/
abbrev ElemId := Nat

/-- Identity of a widget instance (the object `getOrCreateInstance` returns). -/
abbrev InstId := Nat

/-- A DOM element as the selector engine sees it: its identity and its class tokens. -/
structure Element where
  id : ElemId
  classList : List String
deriving DecidableEq, Repr

/-- A node of the document tree: an element and its children in document order. -/
inductive Node where
  | mk (el : Element) (children : List Node)

/-- The document: its top-level nodes in document order (`[]` is the empty document). -/
abbrev Document := List Node

mutual
/-- Elements of a subtree in document (pre-order, depth-first) order. -/
def Node.preorder : Node → List Element
  | .mk el children => el :: preorderList children
/-- Elements of a forest in document order. -/
def preorderList : List Node → List Element
  | [] => []
  | n :: ns => n.preorder ++ preorderList ns
end

mutual
/-- Detach the element with identity `id` (and its subtree) from a subtree. -/
def Node.remove (id : ElemId) : Node → Option Node
  | .mk el children =>
    if el.id = id then none else some (.mk el (removeList id children))
/-- Detach the element with identity `id` (and its subtree) from a forest. -/
def removeList (id : ElemId) : List Node → List Node
  | [] => []
  | n :: ns =>
    match n.remove id with
    | none => removeList id ns
    | some m => m :: removeList id ns
end

/-- The element sits in the document: it is the element of the first top-level node, or it
sits among the children of that node, or it sits in the nodes after it. -/
inductive OccursIn (x : Element) : Document → Prop where
  | here (children rest : List Node) : OccursIn x (Node.mk x children :: rest)
  | inside (el : Element) (children rest : List Node) :
      OccursIn x children → OccursIn x (Node.mk el children :: rest)
  | later (n : Node) (rest : List Node) : OccursIn x rest → OccursIn x (n :: rest)

/-- A compound class selector `.c1.c2...`: the class names that must all be present. -/
abbrev Selector := List String

/-- The selector literal of the script, `'.alert.alert-dismissible'`. -/
def alertSelector : Selector := ["alert", "alert-dismissible"]

/-- Whether an element matches a compound class selector: every class name of the selector
is one of the element's class tokens, compared exactly (as in a no-quirks document). -/
def matchesSelector (sel : Selector) (el : Element) : Bool :=
  sel.all (fun c => decide (c ∈ el.classList))

/-- The call `document.querySelectorAll(sel)`: matching elements in document order. -/
def querySelectorAll (sel : Selector) (doc : Document) : List Element :=
  (preorderList doc).filter (matchesSelector sel)

/-- Exceptions a script can raise. -/
inductive JsError where
  | referenceError (name : String)
  | typeError (detail : String)
  | thrown (code : Nat)
deriving DecidableEq, Repr

/-- Values the script's own functions return. -/
inductive JsValue where
  | undefined
  | number (n : Nat)
deriving DecidableEq, Repr

/-- How a function call ends: with a value, or with an exception. -/
inductive Completion where
  | normal (value : JsValue)
  | throw (error : JsError)
deriving DecidableEq, Repr

/-- State of the widget library: which element owns which instance, and how many
instances have been constructed so far. -/
structure Registry where
  entries : List (ElemId × InstId)
  created : Nat
deriving DecidableEq, Repr

/-- What the widget library can read and change: the document and its own registry. -/
structure Page where
  document : Document
  widgets : Registry

/-- The widget class `bootstrap.Alert` as the script uses it.  It is external code, so
both operations are arbitrary state transformers that may throw. -/
structure AlertApi where
  getOrCreateInstance : Page → ElemId → Except JsError InstId × Page
  close : Page → InstId → Option JsError × Page

/-- The global object `bootstrap`; its `Alert` property may be undefined. -/
structure Bootstrap where
  Alert : Option AlertApi

/-- A pending one-shot timer.  The callback is the same closure body for every timer of
the script, so it is represented by the variable it captures, `el`. -/
structure Timer where
  handle : Nat
  delay : Nat
  armedAt : Nat
  el : ElemId
deriving DecidableEq, Repr

/-- Observable calls, each stamped with the clock value at which it happened. -/
inductive Event where
  | timerFired (el : ElemId) (time : Nat)
  | getOrCreateInstance (el : ElemId) (time : Nat)
  | close (el : ElemId) (inst : InstId) (time : Nat)
deriving DecidableEq, Repr

/-- The element whose timer produced the event. -/
def Event.el : Event → ElemId
  | .timerFired el _ => el
  | .getOrCreateInstance el _ => el
  | .close el _ _ => el

/-- The clock value of the event. -/
def Event.time : Event → Nat
  | .timerFired _ t => t
  | .getOrCreateInstance _ t => t
  | .close _ _ t => t

/-- Is the event the scheduler running the callback armed for `e`? -/
def Event.isFired (e : ElemId) : Event → Bool
  | .timerFired el _ => el == e
  | _ => false

/-- Is the event a call `getOrCreateInstance(e)`? -/
def Event.isGet (e : ElemId) : Event → Bool
  | .getOrCreateInstance el _ => el == e
  | _ => false

/-- Is the event a call `close()` issued by the callback armed for `e`? -/
def Event.isClose (e : ElemId) : Event → Bool
  | .close el _ _ => el == e
  | _ => false

/-- The host state: clock (ms), page, pending timers in registration order, the next
timer handle, the trace of calls, and the exceptions that reached the host's default
handler. -/
structure World where
  now : Nat
  page : Page
  timers : List Timer
  nextHandle : Nat
  trace : List Event
  uncaught : List JsError

/-! ## The script -/

/-- The call `setTimeout(cb, delay)` with `cb` closing over `el`: registers a pending
timer and returns its handle. -/
def setTimeout (el : ElemId) (delay : Nat) (w : World) : Completion × World :=
  (.normal (.number w.nextHandle),
   { w with timers := w.timers ++ [⟨w.nextHandle, delay, w.now, el⟩],
            nextHandle := w.nextHandle + 1 })

/-- The call `xs.forEach(body)`: runs `body` on each item in order; an exception thrown by
`body` ends the loop and propagates. -/
def forEach (xs : List Element) (body : Element → World → Completion × World)
    (w : World) : Completion × World :=
  match xs with
  | [] => (.normal .undefined, w)
  | x :: rest =>
    match body x w with
    | (.throw e, w1) => (.throw e, w1)
    | (.normal _, w1) => forEach rest body w1

/-- Lines 5-10, the loop body `el => { setTimeout(() => {...}, 5000); }`: arms one timer
and discards the handle. -/
def armTimer (el : Element) (w : World) : Completion × World :=
  match setTimeout el.id 5000 w with
  | (.throw e, w1) => (.throw e, w1)
  | (.normal _, w1) => (.normal .undefined, w1)

/-- Lines 4-11, the `DOMContentLoaded` listener (the spec's `armAutoDismiss`). -/
def armAutoDismiss (w : World) : Completion × World :=
  match forEach (querySelectorAll alertSelector w.page.document) armTimer w with
  | (.throw e, w1) => (.throw e, w1)
  | (.normal _, w1) => (.normal .undefined, w1)

/-- Lines 6-9, the timer callback for the captured element `el`:
`const bsAlert = bootstrap.Alert.getOrCreateInstance(el); bsAlert.close();`.
`bootstrap = none` is an unbound global. -/
def timerCallback (bootstrap : Option Bootstrap) (el : ElemId) (w : World) :
    Completion × World :=
  match bootstrap with
  | none => (.throw (.referenceError "bootstrap"), w)
  | some bs =>
    match bs.Alert with
    | none => (.throw (.typeError "bootstrap.Alert is undefined"), w)
    | some api =>
      let w1 := { w with trace := w.trace ++ [Event.getOrCreateInstance el w.now] }
      match api.getOrCreateInstance w1.page el with
      | (.error e, p1) => (.throw e, { w1 with page := p1 })
      | (.ok bsAlert, p1) =>
        let w2 := { w1 with page := p1, trace := w1.trace ++ [Event.close el bsAlert w.now] }
        match api.close p1 bsAlert with
        | (some e, p2) => (.throw e, { w2 with page := p2 })
        | (none, p2) => (.normal .undefined, { w2 with page := p2 })

/-! ## The host -/

/-- What the host can do after the ready signal: let time pass, run the pending timer at
position `k`, or let other page code change the document and the widget registry. -/
inductive HostAction where
  | tick (dt : Nat)
  | fire (k : Nat)
  | mutate (page : Page)

/-- One host step.  A timer is run only when its delay has elapsed; it is removed from the
pending timers before its callback runs, and an exception of the callback goes to the
host's default handler. -/
def step (bootstrap : Option Bootstrap) (w : World) : HostAction → World
  | .tick dt => { w with now := w.now + dt }
  | .mutate page => { w with page := page }
  | .fire k =>
    match w.timers[k]? with
    | none => w
    | some t =>
      if w.now < t.armedAt + t.delay then w
      else
        let w1 := { w with timers := w.timers.eraseIdx k,
                           trace := w.trace ++ [Event.timerFired t.el w.now] }
        match timerCallback bootstrap t.el w1 with
        | (.throw e, w2) => { w2 with uncaught := w2.uncaught ++ [e] }
        | (.normal _, w2) => w2

/-- A sequence of host steps. -/
def run (bootstrap : Option Bootstrap) (w : World) (acts : List HostAction) : World :=
  acts.foldl (step bootstrap) w

/-- The host state when the ready signal is delivered at clock `t0`. -/
def atReady (page : Page) (t0 : Nat) : World :=
  { now := t0, page := page, timers := [], nextHandle := 1, trace := [], uncaught := [] }

/-- The host state right after the `DOMContentLoaded` listener has returned. -/
def pageLoad (page : Page) (t0 : Nat) : World :=
  (armAutoDismiss (atReady page t0)).2

/-- Identities of the elements the listener selects in a document. -/
def matchedIds (doc : Document) : List ElemId :=
  (querySelectorAll alertSelector doc).map (fun el => el.id)

/-- Identities of all elements of a document, in document order. -/
def elementIds (doc : Document) : List ElemId :=
  (preorderList doc).map (fun el => el.id)

/-- Number of pending timers whose callback captured `e`. -/
def pendingCount (e : ElemId) (w : World) : Nat :=
  w.timers.countP (fun t => t.el == e)

/-- Number of times the scheduler ran the callback armed for `e`. -/
def firedCount (e : ElemId) (w : World) : Nat :=
  w.trace.countP (Event.isFired e)

/-- Number of calls `getOrCreateInstance(e)`. -/
def getCount (e : ElemId) (w : World) : Nat :=
  w.trace.countP (Event.isGet e)

/-- Number of close-requests issued by the callback armed for `e`. -/
def closeCount (e : ElemId) (w : World) : Nat :=
  w.trace.countP (Event.isClose e)

/-! ## The widget library, from its contract -/

/-- The instance registered for an element, if any. -/
def Registry.lookup (r : Registry) (el : ElemId) : Option InstId :=
  (r.entries.find? (fun p => p.1 == el)).map (fun p => p.2)

/-- The element an instance is registered for, if any. -/
def Registry.owner (r : Registry) (inst : InstId) : Option ElemId :=
  (r.entries.find? (fun p => p.2 == inst)).map (fun p => p.1)

/-- Modelled from the spec: `bootstrap.Alert.getOrCreateInstance`, which is third-party
code.  "Obtain the element's existing widget instance or create one if absent"; a new
instance gets the next unused identity. -/
def specGetOrCreateInstance (p : Page) (el : ElemId) : Except JsError InstId × Page :=
  match p.widgets.lookup el with
  | some i => (.ok i, p)
  | none =>
    (.ok p.widgets.created,
     { p with widgets := { entries := p.widgets.entries ++ [(el, p.widgets.created)],
                           created := p.widgets.created + 1 } })

/-- Modelled from the spec: the instance's `close()`, which is third-party code.  It is
"expected to visually remove the element and release its instance". -/
def specClose (p : Page) (inst : InstId) : Option JsError × Page :=
  (none,
   { document :=
       match p.widgets.owner inst with
       | some el => removeList el p.document
       | none => p.document,
     widgets := { entries := p.widgets.entries.filter (fun q => q.2 != inst),
                  created := p.widgets.created } })

/-- Modelled from the spec: the widget class with the contract the spec states for it. -/
def specAlert : AlertApi :=
  { getOrCreateInstance := specGetOrCreateInstance, close := specClose }

/-- Modelled from the spec: the global `bootstrap` with that widget class loaded. -/
def specBootstrap : Option Bootstrap := some { Alert := some specAlert }

/-! ## Sample pages -/

/-- A page with two dismissible alerts (1 and 3, the latter nested in 2), a plain alert
(2) and an element that is no alert (4). -/
def demoDocument : Document :=
  [Node.mk ⟨1, ["alert", "alert-success", "alert-dismissible"]⟩ [],
   Node.mk ⟨2, ["alert"]⟩ [Node.mk ⟨3, ["alert-dismissible", "fade", "alert"]⟩ []],
   Node.mk ⟨4, ["container"]⟩ []]

/-- The sample document with no widget instance yet. -/
def demoPage : Page := ⟨demoDocument, ⟨[], 0⟩⟩

/-- The sample document after other page code has appended a dismissible alert (9). -/
def demoPageLater : Page :=
  ⟨demoDocument ++ [Node.mk ⟨9, ["alert", "alert-dismissible"]⟩ []], ⟨[], 0⟩⟩

/-- A widget class whose lookup throws for the element `bad` and follows the contract
for every other element. -/
def faultyAlert (bad : ElemId) : AlertApi :=
  { getOrCreateInstance := fun p el =>
      if el = bad then (.error (.thrown 0), p) else specGetOrCreateInstance p el,
    close := specClose }

/-- A widget class that refuses an element which is no longer in the document and follows
the contract for every element that still is. -/
def attachedOnlyAlert : AlertApi :=
  { getOrCreateInstance := fun p el =>
      if el ∈ elementIds p.document then specGetOrCreateInstance p el
      else (.error (.thrown 1), p),
    close := specClose }

/-- A page with a dismissible alert (2) nested in another dismissible alert (1). -/
def nestedPage : Page :=
  ⟨[Node.mk ⟨1, ["alert", "alert-dismissible"]⟩
      [Node.mk ⟨2, ["alert", "alert-dismissible"]⟩ []]], ⟨[], 0⟩⟩

/-- A registry in which no instance is registered twice and every registered instance has
been constructed. -/
def Registry.WF (r : Registry) : Prop :=
  (r.entries.map (fun q => q.2)).Nodup ∧ ∀ q ∈ r.entries, q.2 < r.created

/-! ## Auxiliary definitions for the proofs -/

/-- The timers the loop registers for a list of elements, starting at handle `h`. -/
def armedTimers (h now : Nat) : List Element → List Timer
  | [] => []
  | x :: xs => ⟨h, 5000, now, x.id⟩ :: armedTimers (h + 1) now xs

/-- The trace a callback run appends: nothing when the widget class is absent, the lookup
call when the lookup throws, and the lookup call followed by the close-request otherwise. -/
def callbackEvents (bootstrap : Option Bootstrap) (el : ElemId) (page : Page) (now : Nat) :
    List Event :=
  match bootstrap with
  | none => []
  | some bs =>
    match bs.Alert with
    | none => []
    | some api =>
      match (api.getOrCreateInstance page el).1 with
      | .error _ => [Event.getOrCreateInstance el now]
      | .ok i => [Event.getOrCreateInstance el now, Event.close el i now]

/-- What holds after the listener has returned and after every later host step, for the
timers `T0` armed at clock `t0`. -/
structure Inv (bootstrap : Option Bootstrap) (T0 : List Timer) (t0 : Nat) (w : World) :
    Prop where
  sub : w.timers.Sublist T0
  trace_el : ∀ ev ∈ w.trace, ∃ t ∈ T0, t.el = ev.el
  trace_time : ∀ ev ∈ w.trace, t0 + 5000 ≤ ev.time
  count : ∀ e, pendingCount e w + firedCount e w = T0.countP (fun t => t.el == e)
  get_le : ∀ e, getCount e w ≤ firedCount e w
  close_le : ∀ e, closeCount e w ≤ getCount e w
  get_eq : ∀ api, bootstrap = some ⟨some api⟩ → ∀ e, getCount e w = firedCount e w
  close_eq : ∀ api, bootstrap = some ⟨some api⟩ → ∀ e,
    (∀ p, ∃ i, (api.getOrCreateInstance p e).1 = .ok i) → closeCount e w = firedCount e w
  close_zero : ∀ e,
    (∀ api, bootstrap = some ⟨some api⟩ →
      ∀ p, ∃ err, (api.getOrCreateInstance p e).1 = .error err) → closeCount e w = 0

/-! ## The listener in closed form -/

theorem armedTimers_length (h now : Nat) (xs : List Element) :
    (armedTimers h now xs).length = xs.length := by
  induction xs generalizing h with
  | nil => rfl
  | cons x xs ih => simp [armedTimers, ih]

theorem armedTimers_el (h now : Nat) (xs : List Element) :
    (armedTimers h now xs).map (fun t => t.el) = xs.map (fun x => x.id) := by
  induction xs generalizing h with
  | nil => rfl
  | cons x xs ih => simp [armedTimers, ih]

theorem armedTimers_handle (h now : Nat) (xs : List Element) :
    (armedTimers h now xs).map (fun t => t.handle) = List.range' h xs.length := by
  induction xs generalizing h with
  | nil => rfl
  | cons x xs ih => simp [armedTimers, ih, List.range'_succ]

theorem armedTimers_mem (h now : Nat) (xs : List Element) (t : Timer)
    (ht : t ∈ armedTimers h now xs) :
    t.delay = 5000 ∧ t.armedAt = now ∧ t.el ∈ xs.map (fun x => x.id) := by
  induction xs generalizing h with
  | nil => simp [armedTimers] at ht
  | cons x xs ih =>
    simp only [armedTimers, List.mem_cons] at ht
    rcases ht with rfl | ht
    · simp
    · obtain ⟨h1, h2, h3⟩ := ih (h + 1) ht
      exact ⟨h1, h2, by simp only [List.map_cons, List.mem_cons]; exact Or.inr h3⟩

theorem forEach_armTimer (xs : List Element) (w : World) :
    forEach xs armTimer w =
      (.normal .undefined,
       { w with timers := w.timers ++ armedTimers w.nextHandle w.now xs,
                nextHandle := w.nextHandle + xs.length }) := by
  induction xs generalizing w with
  | nil => simp [forEach, armedTimers]
  | cons x xs ih =>
    simp only [forEach, armTimer, setTimeout, ih, armedTimers, List.length_cons,
      List.append_assoc, List.singleton_append]
    congr 2
    omega

theorem armAutoDismiss_eq (w : World) :
    armAutoDismiss w =
      (.normal .undefined,
       { w with
         timers := w.timers ++
           armedTimers w.nextHandle w.now (querySelectorAll alertSelector w.page.document),
         nextHandle := w.nextHandle +
           (querySelectorAll alertSelector w.page.document).length }) := by
  simp [armAutoDismiss, forEach_armTimer]

theorem pageLoad_eq (page : Page) (t0 : Nat) :
    pageLoad page t0 =
      { now := t0, page := page,
        timers := armedTimers 1 t0 (querySelectorAll alertSelector page.document),
        nextHandle := 1 + (querySelectorAll alertSelector page.document).length,
        trace := [], uncaught := [] } := by
  simp [pageLoad, armAutoDismiss_eq, atReady]

/-! ## The timer callback -/

theorem timerCallback_trace (bootstrap : Option Bootstrap) (el : ElemId) (w : World) :
    (timerCallback bootstrap el w).2.trace =
      w.trace ++ callbackEvents bootstrap el w.page w.now := by
  rcases bootstrap with _ | ⟨_ | api⟩
  · simp [timerCallback, callbackEvents]
  · simp [timerCallback, callbackEvents]
  · simp only [timerCallback, callbackEvents]
    rcases hg : api.getOrCreateInstance w.page el with ⟨r, p1⟩
    cases r with
    | error e => simp
    | ok i =>
      simp only
      rcases hc : api.close p1 i with ⟨r2, p2⟩
      cases r2 <;> simp

theorem timerCallback_frame (bootstrap : Option Bootstrap) (el : ElemId) (w : World) :
    (timerCallback bootstrap el w).2.timers = w.timers ∧
    (timerCallback bootstrap el w).2.now = w.now ∧
    (timerCallback bootstrap el w).2.nextHandle = w.nextHandle ∧
    (timerCallback bootstrap el w).2.uncaught = w.uncaught := by
  rcases bootstrap with _ | ⟨_ | api⟩
  · simp [timerCallback]
  · simp [timerCallback]
  · simp only [timerCallback]
    rcases hg : api.getOrCreateInstance w.page el with ⟨r, p1⟩
    cases r with
    | error e => simp
    | ok i =>
      simp only
      rcases hc : api.close p1 i with ⟨r2, p2⟩
      cases r2 <;> simp

theorem callbackEvents_mem (bootstrap : Option Bootstrap) (el : ElemId) (page : Page)
    (now : Nat) (ev : Event) (h : ev ∈ callbackEvents bootstrap el page now) :
    ev.el = el ∧ ev.time = now := by
  rcases bootstrap with _ | ⟨_ | api⟩
  · simp [callbackEvents] at h
  · simp [callbackEvents] at h
  · simp only [callbackEvents] at h
    cases hg : (api.getOrCreateInstance page el).1 with
    | error e =>
      simp only [hg, List.mem_singleton] at h
      subst h; simp [Event.el, Event.time]
    | ok i =>
      simp only [hg, List.mem_cons, List.mem_singleton, List.not_mem_nil, or_false] at h
      rcases h with rfl | rfl <;> simp [Event.el, Event.time]

theorem callbackEvents_fired (bootstrap : Option Bootstrap) (el : ElemId) (page : Page)
    (now : Nat) (e : ElemId) :
    (callbackEvents bootstrap el page now).countP (Event.isFired e) = 0 := by
  rcases bootstrap with _ | ⟨_ | api⟩
  · simp [callbackEvents]
  · simp [callbackEvents]
  · simp only [callbackEvents]
    cases hg : (api.getOrCreateInstance page el).1 <;> simp [Event.isFired]

theorem callbackEvents_get_le (bootstrap : Option Bootstrap) (el : ElemId) (page : Page)
    (now : Nat) (e : ElemId) :
    (callbackEvents bootstrap el page now).countP (Event.isGet e) ≤
      if el = e then 1 else 0 := by
  rcases bootstrap with _ | ⟨_ | api⟩
  · simp [callbackEvents]
  · simp [callbackEvents]
  · simp only [callbackEvents]
    cases hg : (api.getOrCreateInstance page el).1 <;>
      by_cases h : el = e <;> simp [Event.isGet, Event.isClose, List.countP_cons, h]

theorem callbackEvents_get_eq (api : AlertApi) (el : ElemId) (page : Page)
    (now : Nat) (e : ElemId) :
    (callbackEvents (some ⟨some api⟩) el page now).countP (Event.isGet e) =
      if el = e then 1 else 0 := by
  simp only [callbackEvents]
  cases hg : (api.getOrCreateInstance page el).1 <;>
    by_cases h : el = e <;> simp [Event.isGet, Event.isClose, List.countP_cons, h]

theorem callbackEvents_close_le (bootstrap : Option Bootstrap) (el : ElemId) (page : Page)
    (now : Nat) (e : ElemId) :
    (callbackEvents bootstrap el page now).countP (Event.isClose e) ≤
      (callbackEvents bootstrap el page now).countP (Event.isGet e) := by
  rcases bootstrap with _ | ⟨_ | api⟩
  · simp [callbackEvents]
  · simp [callbackEvents]
  · simp only [callbackEvents]
    cases hg : (api.getOrCreateInstance page el).1 <;>
      by_cases h : el = e <;> simp [Event.isGet, Event.isClose, List.countP_cons, h]

theorem callbackEvents_close_eq (api : AlertApi) (el : ElemId) (page : Page)
    (now : Nat) (e : ElemId) (hok : el = e → ∃ i, (api.getOrCreateInstance page el).1 = .ok i) :
    (callbackEvents (some ⟨some api⟩) el page now).countP (Event.isClose e) =
      if el = e then 1 else 0 := by
  simp only [callbackEvents]
  by_cases h : el = e
  · obtain ⟨i, hi⟩ := hok h
    subst h
    simp [hi, Event.isGet, Event.isClose, List.countP_cons]
  · cases hg : (api.getOrCreateInstance page el).1 <;>
      simp [Event.isGet, Event.isClose, List.countP_cons, h]

theorem callbackEvents_close_zero (bootstrap : Option Bootstrap) (el : ElemId) (page : Page)
    (now : Nat) (e : ElemId)
    (hno : el = e → ∀ api, bootstrap = some ⟨some api⟩ →
      ∃ err, (api.getOrCreateInstance page el).1 = .error err) :
    (callbackEvents bootstrap el page now).countP (Event.isClose e) = 0 := by
  rcases bootstrap with _ | ⟨_ | api⟩
  · simp [callbackEvents]
  · simp [callbackEvents]
  · simp only [callbackEvents]
    by_cases h : el = e
    · obtain ⟨err, herr⟩ := hno h api rfl
      simp [herr, Event.isClose]
    · cases hg : (api.getOrCreateInstance page el).1 <;>
        simp [Event.isClose, List.countP_cons, h]

/-! ## Host steps -/

theorem countP_eraseIdx_add {α : Type} (p : α → Bool) (l : List α) (k : Nat) (t : α)
    (h : l[k]? = some t) :
    (l.eraseIdx k).countP p + (if p t = true then 1 else 0) = l.countP p := by
  induction l generalizing k with
  | nil => simp at h
  | cons a l ih =>
    cases k with
    | zero =>
      simp only [List.getElem?_cons_zero, Option.some.injEq] at h
      subst h
      simp [List.countP_cons]
    | succ k =>
      simp only [List.getElem?_cons_succ] at h
      have := ih k h
      simp only [List.eraseIdx_cons_succ, List.countP_cons]
      omega

theorem step_fire_idle (bootstrap : Option Bootstrap) (w : World) (k : Nat)
    (h : w.timers[k]? = none ∨ ∃ t, w.timers[k]? = some t ∧ w.now < t.armedAt + t.delay) :
    step bootstrap w (.fire k) = w := by
  rcases h with h | ⟨t, h, hlt⟩
  · simp [step, h]
  · simp [step, h, hlt]

theorem step_fire_due (bootstrap : Option Bootstrap) (w : World) (k : Nat) (t : Timer)
    (h : w.timers[k]? = some t) (hdue : t.armedAt + t.delay ≤ w.now) :
    (step bootstrap w (.fire k)).timers = w.timers.eraseIdx k ∧
    (step bootstrap w (.fire k)).now = w.now ∧
    (step bootstrap w (.fire k)).nextHandle = w.nextHandle ∧
    (step bootstrap w (.fire k)).trace =
      w.trace ++ Event.timerFired t.el w.now :: callbackEvents bootstrap t.el w.page w.now := by
  have hnlt : ¬ w.now < t.armedAt + t.delay := by omega
  simp only [step, h, hnlt, if_false]
  generalize hw1 : ({ w with timers := w.timers.eraseIdx k,
                             trace := w.trace ++ [Event.timerFired t.el w.now] } : World) = w1
  have hf := timerCallback_frame bootstrap t.el w1
  have ht := timerCallback_trace bootstrap t.el w1
  rcases hr : timerCallback bootstrap t.el w1 with ⟨c, w2⟩
  rw [hr] at hf ht
  simp only at hf ht
  subst hw1
  simp only at hf ht
  cases c <;> simp [hf, ht]

/-! ## The invariant of every run -/

theorem Inv.step {bootstrap : Option Bootstrap} {T0 : List Timer} {t0 : Nat} {w : World}
    (hT0 : ∀ t ∈ T0, t.delay = 5000 ∧ t.armedAt = t0)
    (h : Inv bootstrap T0 t0 w) (a : HostAction) : Inv bootstrap T0 t0 (step bootstrap w a) := by
  cases a with
  | tick dt => exact ⟨h.sub, h.trace_el, h.trace_time, h.count, h.get_le, h.close_le,
      h.get_eq, h.close_eq, h.close_zero⟩
  | mutate page => exact ⟨h.sub, h.trace_el, h.trace_time, h.count, h.get_le, h.close_le,
      h.get_eq, h.close_eq, h.close_zero⟩
  | fire k =>
    cases hk : w.timers[k]? with
    | none => rw [step_fire_idle bootstrap w k (Or.inl hk)]; exact h
    | some t =>
      by_cases hlt : w.now < t.armedAt + t.delay
      · rw [step_fire_idle bootstrap w k (Or.inr ⟨t, hk, hlt⟩)]; exact h
      · have htm : t ∈ w.timers := List.getElem?_mem hk
        have htT : t ∈ T0 := h.sub.subset htm
        obtain ⟨hd, ha⟩ := hT0 t htT
        obtain ⟨s1, s2, s3, s4⟩ := step_fire_due bootstrap w k t hk (by omega)
        have hpend : ∀ e, pendingCount e (FaceAttendance.step bootstrap w (.fire k)) +
            (if t.el = e then 1 else 0) = pendingCount e w := by
          intro e
          have := countP_eraseIdx_add (fun t => t.el == e) w.timers k t hk
          simp only [pendingCount, s1]
          simpa using this
        have hfired : ∀ e, firedCount e (FaceAttendance.step bootstrap w (.fire k)) =
            firedCount e w + (if t.el = e then 1 else 0) := by
          intro e
          simp only [firedCount, s4, List.countP_append, List.countP_cons,
            callbackEvents_fired, Event.isFired, beq_iff_eq]
          omega
        have hget : ∀ e, getCount e (FaceAttendance.step bootstrap w (.fire k)) =
            getCount e w +
              (callbackEvents bootstrap t.el w.page w.now).countP (Event.isGet e) := by
          intro e
          simp [getCount, s4, List.countP_append, List.countP_cons, Event.isGet]
        have hclose : ∀ e, closeCount e (FaceAttendance.step bootstrap w (.fire k)) =
            closeCount e w +
              (callbackEvents bootstrap t.el w.page w.now).countP (Event.isClose e) := by
          intro e
          simp [closeCount, s4, List.countP_append, List.countP_cons, Event.isClose]
        refine ⟨?_, ?_, ?_, ?_, ?_, ?_, ?_, ?_, ?_⟩
        · rw [s1]; exact (List.eraseIdx_sublist _ _).trans h.sub
        · intro ev hev
          rw [s4] at hev
          simp only [List.mem_append, List.mem_cons] at hev
          rcases hev with hev | rfl | hev
          · exact h.trace_el ev hev
          · exact ⟨t, htT, rfl⟩
          · exact ⟨t, htT, (callbackEvents_mem _ _ _ _ _ hev).1.symm⟩
        · intro ev hev
          rw [s4] at hev
          simp only [List.mem_append, List.mem_cons] at hev
          rcases hev with hev | rfl | hev
          · exact h.trace_time ev hev
          · simp only [Event.time]; omega
          · rw [(callbackEvents_mem _ _ _ _ _ hev).2]; omega
        · intro e
          have := h.count e
          have := hpend e
          have := hfired e
          omega
        · intro e
          have := h.get_le e
          have := hget e
          have := hfired e
          have := callbackEvents_get_le bootstrap t.el w.page w.now e
          omega
        · intro e
          have := h.close_le e
          have := hget e
          have := hclose e
          have := callbackEvents_close_le bootstrap t.el w.page w.now e
          omega
        · intro api hb e
          subst hb
          have := h.get_eq api rfl e
          have := hget e
          have := hfired e
          have := callbackEvents_get_eq api t.el w.page w.now e
          omega
        · intro api hb e hok
          subst hb
          have := h.close_eq api rfl e hok
          have := hclose e
          have := hfired e
          have := callbackEvents_close_eq api t.el w.page w.now e
            (fun heq => by subst heq; exact hok w.page)
          omega
        · intro e hno
          have := h.close_zero e hno
          have := hclose e
          have := callbackEvents_close_zero bootstrap t.el w.page w.now e
            (fun heq api hb => by subst heq; exact hno api hb w.page)
          omega

theorem Inv.run {bootstrap : Option Bootstrap} {T0 : List Timer} {t0 : Nat}
    (hT0 : ∀ t ∈ T0, t.delay = 5000 ∧ t.armedAt = t0) (acts : List HostAction) :
    ∀ {w : World}, Inv bootstrap T0 t0 w → Inv bootstrap T0 t0 (run bootstrap w acts) := by
  induction acts with
  | nil => intro w h; exact h
  | cons a acts ih => intro w h; exact ih (h.step hT0 a)

theorem Inv.pageLoad (bootstrap : Option Bootstrap) (page : Page) (t0 : Nat) :
    Inv bootstrap (pageLoad page t0).timers t0 (pageLoad page t0) := by
  refine ⟨List.Sublist.refl _, ?_, ?_, ?_, ?_, ?_, ?_, ?_, ?_⟩ <;>
    simp [pageLoad_eq, pendingCount, firedCount, getCount, closeCount]

theorem pageLoad_timers_mem (page : Page) (t0 : Nat) :
    ∀ t ∈ (pageLoad page t0).timers, t.delay = 5000 ∧ t.armedAt = t0 := by
  intro t ht
  rw [pageLoad_eq] at ht
  obtain ⟨h1, h2, _⟩ := armedTimers_mem _ _ _ _ ht
  exact ⟨h1, h2⟩

/-- The invariant holds after every sequence of host steps that follows page load. -/
theorem inv_run (bootstrap : Option Bootstrap) (page : Page) (t0 : Nat)
    (acts : List HostAction) :
    Inv bootstrap (pageLoad page t0).timers t0 (run bootstrap (pageLoad page t0) acts) :=
  Inv.run (pageLoad_timers_mem page t0) acts (Inv.pageLoad bootstrap page t0)

/-! ## Facts about the ready-time scan -/

theorem pageLoad_timers_el (page : Page) (t0 : Nat) :
    (pageLoad page t0).timers.map (fun t => t.el) = matchedIds page.document := by
  rw [pageLoad_eq]
  exact armedTimers_el _ _ _

theorem matchedIds_sublist (doc : Document) :
    (matchedIds doc).Sublist (elementIds doc) :=
  List.Sublist.map _ (List.filter_sublist _)

theorem countP_el_eq_count (T : List Timer) (e : ElemId) :
    T.countP (fun t => t.el == e) = (T.map (fun t => t.el)).count e := by
  induction T with
  | nil => rfl
  | cons t T ih =>
    simp only [List.countP_cons, List.map_cons, List.count_cons, ih]

theorem pageLoad_count_one (page : Page) (t0 : Nat) (e : ElemId)
    (hwf : (elementIds page.document).Nodup) (he : e ∈ matchedIds page.document) :
    (pageLoad page t0).timers.countP (fun t => t.el == e) = 1 := by
  rw [countP_el_eq_count, pageLoad_timers_el]
  exact List.count_eq_one_of_mem (hwf.sublist (matchedIds_sublist _)) he

theorem not_matched_of_not_matching (doc : Document) (el : Element)
    (hwf : (elementIds doc).Nodup) (hel : el ∈ preorderList doc)
    (hno : matchesSelector alertSelector el = false) : el.id ∉ matchedIds doc := by
  intro hmem
  simp only [matchedIds, querySelectorAll, List.mem_map, List.mem_filter] at hmem
  obtain ⟨el2, ⟨hel2, hm2⟩, hid⟩ := hmem
  have : el2 = el := List.inj_on_of_nodup_map hwf hel2 hel hid
  subst this
  rw [hno] at hm2
  exact Bool.false_ne_true hm2

theorem run_no_timer_for (bootstrap : Option Bootstrap) (page : Page) (t0 : Nat)
    (acts : List HostAction) (e : ElemId) (he : e ∉ matchedIds page.document) :
    (∀ t ∈ (run bootstrap (pageLoad page t0) acts).timers, t.el ≠ e) ∧
    (∀ ev ∈ (run bootstrap (pageLoad page t0) acts).trace, ev.el ≠ e) := by
  have hinv := inv_run bootstrap page t0 acts
  have key : ∀ t ∈ (pageLoad page t0).timers, t.el ≠ e := by
    intro t ht heq
    apply he
    rw [← pageLoad_timers_el page t0, ← heq]
    exact List.mem_map_of_mem _ ht
  constructor
  · intro t ht
    exact key t (hinv.sub.subset ht)
  · intro ev hev heq
    obtain ⟨t, ht, hte⟩ := hinv.trace_el ev hev
    exact key t ht (hte.trans heq)

theorem run_idle (bootstrap : Option Bootstrap) (acts : List HostAction) :
    ∀ (w : World), w.timers = [] →
      (run bootstrap w acts).timers = [] ∧ (run bootstrap w acts).trace = w.trace ∧
      (run bootstrap w acts).uncaught = w.uncaught := by
  induction acts with
  | nil => intro w h; exact ⟨h, rfl, rfl⟩
  | cons a acts ih =>
    intro w h
    have hs : (step bootstrap w a).timers = [] ∧ (step bootstrap w a).trace = w.trace ∧
        (step bootstrap w a).uncaught = w.uncaught := by
      cases a with
      | tick dt => exact ⟨h, rfl, rfl⟩
      | mutate page => exact ⟨h, rfl, rfl⟩
      | fire k =>
        rw [step_fire_idle bootstrap w k (Or.inl (by simp [h]))]
        exact ⟨h, rfl, rfl⟩
    obtain ⟨h1, h2, h3⟩ := ih (step bootstrap w a) hs.1
    exact ⟨h1, h2.trans hs.2.1, h3.trans hs.2.2⟩

/-! ## Outcome of a callback run -/

theorem timerCallback_page_only (bootstrap : Option Bootstrap) (el : ElemId) (w w2 : World)
    (h : w.page = w2.page) :
    (timerCallback bootstrap el w).1 = (timerCallback bootstrap el w2).1 ∧
    (timerCallback bootstrap el w).2.page = (timerCallback bootstrap el w2).2.page := by
  rcases bootstrap with _ | ⟨_ | api⟩
  · simp [timerCallback, h]
  · simp [timerCallback, h]
  · simp only [timerCallback, h]
    rcases hg : api.getOrCreateInstance w2.page el with ⟨r, p1⟩
    cases r with
    | error e => simp
    | ok i =>
      simp only
      rcases hc : api.close p1 i with ⟨r2, p2⟩
      cases r2 <;> simp

theorem timerCallback_loaded_outcome (api : AlertApi) (el : ElemId) (w : World) :
    (timerCallback (some ⟨some api⟩) el w).1 =
      (match api.getOrCreateInstance w.page el with
       | (.error e, _) => Completion.throw e
       | (.ok i, p1) =>
         match (api.close p1 i).1 with
         | some e => Completion.throw e
         | none => Completion.normal JsValue.undefined) ∧
    (timerCallback (some ⟨some api⟩) el w).2.page =
      (match api.getOrCreateInstance w.page el with
       | (.error _, p1) => p1
       | (.ok i, p1) => (api.close p1 i).2) := by
  simp only [timerCallback]
  rcases hg : api.getOrCreateInstance w.page el with ⟨r, p1⟩
  cases r with
  | error e => simp
  | ok i =>
    simp only
    rcases hc : api.close p1 i with ⟨r2, p2⟩
    cases r2 <;> simp

theorem step_fire_outcome (bootstrap : Option Bootstrap) (w : World) (k : Nat) (t : Timer)
    (h : w.timers[k]? = some t) (hdue : t.armedAt + t.delay ≤ w.now) :
    (step bootstrap w (.fire k)).uncaught =
      w.uncaught ++ (match (timerCallback bootstrap t.el w).1 with
                     | .throw e => [e]
                     | .normal _ => []) ∧
    (step bootstrap w (.fire k)).page = (timerCallback bootstrap t.el w).2.page := by
  have hnlt : ¬ w.now < t.armedAt + t.delay := by omega
  simp only [step, h, hnlt, if_false]
  generalize hw1 : ({ w with timers := w.timers.eraseIdx k,
                             trace := w.trace ++ [Event.timerFired t.el w.now] } : World) = w1
  have hp : w1.page = w.page := by subst hw1; rfl
  have hu : w1.uncaught = w.uncaught := by subst hw1; rfl
  obtain ⟨hc, hpg⟩ := timerCallback_page_only bootstrap t.el w1 w hp
  have hf := (timerCallback_frame bootstrap t.el w1).2.2.2
  rw [← hc, ← hpg]
  rcases hr : timerCallback bootstrap t.el w1 with ⟨c, w2⟩
  rw [hr] at hf
  simp only at hf
  cases c <;> simp [hf, hu]

theorem callbackEvents_congr (bootstrap : Option Bootstrap) (el : ElemId) (p1 p2 : Page)
    (now : Nat)
    (h : ∀ a, bootstrap = some ⟨some a⟩ →
      (a.getOrCreateInstance p1 el).1 = (a.getOrCreateInstance p2 el).1) :
    callbackEvents bootstrap el p1 now = callbackEvents bootstrap el p2 now := by
  rcases bootstrap with _ | ⟨_ | api⟩
  · rfl
  · rfl
  · simp only [callbackEvents, h api rfl]

theorem fire_after_tick_trace (bootstrap : Option Bootstrap) (w : World) (dt k : Nat)
    (t : Timer) (hk : w.timers[k]? = some t) (hdue : t.armedAt + t.delay ≤ w.now + dt) :
    (step bootstrap (step bootstrap w (.tick dt)) (.fire k)).trace =
      w.trace ++ Event.timerFired t.el (w.now + dt) ::
        callbackEvents bootstrap t.el w.page (w.now + dt) :=
  (step_fire_due bootstrap (step bootstrap w (.tick dt)) k t hk hdue).2.2.2

/-! ## The widget registry of the contract -/

theorem lookup_append_new (r : Registry) (el : ElemId) (i : InstId)
    (h : r.lookup el = none) :
    Registry.lookup ⟨r.entries ++ [(el, i)], r.created + 1⟩ el = some i := by
  have h2 : r.entries.find? (fun p => p.1 == el) = none := by
    cases hf : r.entries.find? (fun p => p.1 == el) with
    | none => rfl
    | some q => simp [Registry.lookup, hf] at h
  show Option.map (fun p => p.2) ((r.entries ++ [(el, i)]).find? (fun p => p.1 == el)) = some i
  rw [List.find?_append, h2]
  simp [List.find?]

theorem specGetOrCreateInstance_lookup (p : Page) (el : ElemId) :
    ∃ i, (specGetOrCreateInstance p el).1 = .ok i ∧
      (specGetOrCreateInstance p el).2.widgets.lookup el = some i ∧
      i = (p.widgets.lookup el).getD p.widgets.created := by
  unfold specGetOrCreateInstance
  cases h : p.widgets.lookup el with
  | some i => exact ⟨i, rfl, h, rfl⟩
  | none => exact ⟨p.widgets.created, rfl, lookup_append_new _ _ _ h, rfl⟩

theorem specGetOrCreateInstance_created (p : Page) (el : ElemId) :
    (specGetOrCreateInstance p el).2.widgets.created =
      p.widgets.created + (if (p.widgets.lookup el).isSome then 0 else 1) := by
  unfold specGetOrCreateInstance
  cases h : p.widgets.lookup el <;> simp

theorem specGetOrCreateInstance_hit (p : Page) (el : ElemId) (i : InstId)
    (h : p.widgets.lookup el = some i) : specGetOrCreateInstance p el = (.ok i, p) := by
  simp [specGetOrCreateInstance, h]

theorem specGetOrCreateInstance_twice (p : Page) (el : ElemId) :
    specGetOrCreateInstance (specGetOrCreateInstance p el).2 el =
      ((specGetOrCreateInstance p el).1, (specGetOrCreateInstance p el).2) := by
  obtain ⟨i, h1, h2, _⟩ := specGetOrCreateInstance_lookup p el
  rw [specGetOrCreateInstance_hit _ el i h2, h1]

theorem specClose_created (p : Page) (i : InstId) :
    (specClose p i).1 = none ∧ (specClose p i).2.widgets.created = p.widgets.created :=
  ⟨rfl, rfl⟩

theorem lookup_mem (r : Registry) (el : ElemId) (i : InstId) (h : r.lookup el = some i) :
    (el, i) ∈ r.entries := by
  simp only [Registry.lookup, Option.map_eq_some'] at h
  obtain ⟨q, hq, hi⟩ := h
  have hm := List.mem_of_find?_eq_some hq
  have hp := List.find?_some hq
  simp only [beq_iff_eq] at hp
  rcases q with ⟨a, b⟩
  simp only at hp hi
  subst hp; subst hi
  exact hm

theorem specGetOrCreateInstance_own (p : Page) (el e2 : ElemId) (i : InstId)
    (hwf : p.widgets.WF) (hne : e2 ≠ el)
    (hi : (specGetOrCreateInstance p el).1 = .ok i) :
    (specGetOrCreateInstance p el).2.widgets.lookup el = some i ∧
    (specGetOrCreateInstance p el).2.widgets.lookup e2 ≠ some i := by
  obtain ⟨j, h1, h2, h3⟩ := specGetOrCreateInstance_lookup p el
  rw [h1] at hi
  cases hi
  refine ⟨h2, ?_⟩
  intro h4
  have m2 := lookup_mem _ _ _ h4
  cases hl : p.widgets.lookup el with
  | some i0 =>
    rw [specGetOrCreateInstance_hit p el i0 hl] at m2 h2
    have m1 := lookup_mem _ _ _ h2
    have := List.inj_on_of_nodup_map hwf.1 m1 m2 rfl
    simp only [Prod.mk.injEq, and_true] at this
    exact hne this.symm
  | none =>
    rw [hl] at h3
    simp only [Option.getD_none] at h3
    simp only [specGetOrCreateInstance, hl, List.mem_append, List.mem_singleton,
      Prod.mk.injEq] at m2
    rcases m2 with m2 | ⟨m2, _⟩
    · have := hwf.2 _ m2
      simp only at this
      exact absurd h3 (Nat.ne_of_lt this)
    · exact hne m2

/-! ## The traversal of the document -/

theorem preorderList_cons (el : Element) (children rest : List Node) :
    preorderList (Node.mk el children :: rest) =
      el :: (preorderList children ++ preorderList rest) := by
  simp [preorderList, Node.preorder]

theorem occursIn_of_mem (x : Element) :
    ∀ (doc : List Node), x ∈ preorderList doc → OccursIn x doc
  | [], h => by simp [preorderList] at h
  | Node.mk el children :: rest, h => by
    rw [preorderList_cons] at h
    simp only [List.mem_cons, List.mem_append] at h
    rcases h with rfl | h | h
    · exact .here _ _
    · exact .inside _ _ _ (occursIn_of_mem x children h)
    · exact .later _ _ (occursIn_of_mem x rest h)

theorem mem_of_occursIn (x : Element) (doc : List Node) (h : OccursIn x doc) :
    x ∈ preorderList doc := by
  induction h with
  | here children rest => rw [preorderList_cons]; exact List.mem_cons_self _ _
  | inside el children rest _ ih =>
    rw [preorderList_cons]
    exact List.mem_cons_of_mem _ (List.mem_append_left _ ih)
  | later n rest _ ih =>
    rcases n with ⟨el, children⟩
    rw [preorderList_cons]
    exact List.mem_cons_of_mem _ (List.mem_append_right _ ih)

/-! ## The claims -/

/-- C1: the listener arms exactly as many timers as the document has elements matching
the selector, one per matching element in document order and each with its own handle;
and in every later run no pending timer and no event (timer run, getOrCreateInstance call,
close-request) refers to an element of the document that does not match. -/
theorem C1_timers_exactly_for_matching (bootstrap : Option Bootstrap) (page : Page)
    (t0 : Nat) (acts : List HostAction) (hwf : (elementIds page.document).Nodup) :
    (pageLoad page t0).timers.length =
        ((preorderList page.document).filter (matchesSelector alertSelector)).length ∧
    (pageLoad page t0).timers.map (fun t => t.el) = matchedIds page.document ∧
    ((pageLoad page t0).timers.map (fun t => t.handle)).Nodup ∧
    ∀ el ∈ preorderList page.document, matchesSelector alertSelector el = false →
      (∀ t ∈ (pageLoad page t0).timers, t.el ≠ el.id) ∧
      (∀ t ∈ (run bootstrap (pageLoad page t0) acts).timers, t.el ≠ el.id) ∧
      (∀ ev ∈ (run bootstrap (pageLoad page t0) acts).trace, ev.el ≠ el.id) := by
  refine ⟨?_, pageLoad_timers_el page t0, ?_, ?_⟩
  · rw [pageLoad_eq]
    exact armedTimers_length _ _ _
  · rw [pageLoad_eq]
    simp only [armedTimers_handle]
    exact List.nodup_range' _ _
  · intro el hel hno
    have hnot := not_matched_of_not_matching page.document el hwf hel hno
    have h0 := run_no_timer_for bootstrap page t0 [] el.id hnot
    have h1 := run_no_timer_for bootstrap page t0 acts el.id hnot
    exact ⟨h0.1, h1.1, h1.2⟩

/-- C1 at the sample page: two timers for the two dismissible alerts. -/
theorem C1_witness :
    (elementIds demoPage.document).Nodup ∧
    (pageLoad demoPage 100).timers.length =
        ((preorderList demoPage.document).filter (matchesSelector alertSelector)).length ∧
    (pageLoad demoPage 100).timers.map (fun t => t.el) = [1, 3] :=
  ⟨by decide,
   (C1_timers_exactly_for_matching specBootstrap demoPage 100
      [.tick 5000, .fire 1, .fire 0] (by decide)).1,
   by decide⟩

/-- C2, which fails as stated: at the sample page with `bootstrap` unbound, the timer of
the matched element 1 has fired after 5000 ms (it is no longer pending and its callback
ran once), and no close-request has been issued for it. -/
theorem C2_counterexample :
    1 ∈ matchedIds demoPage.document ∧
    pendingCount 1 (run none (pageLoad demoPage 100) [.tick 5000, .fire 0]) = 0 ∧
    firedCount 1 (run none (pageLoad demoPage 100) [.tick 5000, .fire 0]) = 1 ∧
    closeCount 1 (run none (pageLoad demoPage 100) [.tick 5000, .fire 0]) = 0 := by
  decide

/-- C2 as amended: every timer the listener arms has delay 5000 and the listener itself
issues no call; every event of every run happens at least 5000 ms after the ready signal;
a matched element has one timer, which is either still pending or has run once (it is
never dropped or armed again); its close-requests never outnumber the runs of its timer,
so there is none while it is pending and at most one afterwards; and there is exactly one
per run of its timer when the widget class is loaded and its lookup returns an instance
for that element. -/
theorem C2_delay_and_single_close (bootstrap : Option Bootstrap) (page : Page) (t0 : Nat)
    (acts : List HostAction) (e : ElemId) (hwf : (elementIds page.document).Nodup)
    (he : e ∈ matchedIds page.document) :
    (∀ t ∈ (pageLoad page t0).timers, t.delay = 5000 ∧ t.armedAt = t0) ∧
    (pageLoad page t0).trace = [] ∧
    (∀ ev ∈ (run bootstrap (pageLoad page t0) acts).trace, t0 + 5000 ≤ ev.time) ∧
    pendingCount e (run bootstrap (pageLoad page t0) acts) +
      firedCount e (run bootstrap (pageLoad page t0) acts) = 1 ∧
    closeCount e (run bootstrap (pageLoad page t0) acts) ≤
      firedCount e (run bootstrap (pageLoad page t0) acts) ∧
    (∀ api, bootstrap = some ⟨some api⟩ →
      (∀ p, ∃ i, (api.getOrCreateInstance p e).1 = .ok i) →
      closeCount e (run bootstrap (pageLoad page t0) acts) =
        firedCount e (run bootstrap (pageLoad page t0) acts)) := by
  have hinv := inv_run bootstrap page t0 acts
  refine ⟨pageLoad_timers_mem page t0, by rw [pageLoad_eq], hinv.trace_time, ?_, ?_, ?_⟩
  · rw [hinv.count e]
    exact pageLoad_count_one page t0 e hwf he
  · exact (hinv.close_le e).trans (hinv.get_le e)
  · intro api hb hok
    exact hinv.close_eq api hb e hok

/-- C2 as amended, at the sample page with the widget class loaded: element 3 is closed
once, 5000 ms after the ready signal. -/
theorem C2_witness :
    (elementIds demoPage.document).Nodup ∧ 3 ∈ matchedIds demoPage.document ∧
    closeCount 3 (run specBootstrap (pageLoad demoPage 100) [.fire 1, .tick 5000, .fire 1]) ≤
      firedCount 3 (run specBootstrap (pageLoad demoPage 100) [.fire 1, .tick 5000, .fire 1]) ∧
    (run specBootstrap (pageLoad demoPage 100) [.fire 1, .tick 5000, .fire 1]).trace =
      [Event.timerFired 3 5100, Event.getOrCreateInstance 3 5100, Event.close 3 0 5100] :=
  ⟨by decide, by decide,
   (C2_delay_and_single_close specBootstrap demoPage 100 [.fire 1, .tick 5000, .fire 1] 3
      (by decide) (by decide)).2.2.2.2.1,
   by decide⟩

/-- C3: an element matches the selector of the script exactly when its class list holds
both `alert` and `alert-dismissible`, whatever else it holds; the listener selects an
element exactly when it sits anywhere in the document tree, at any depth, and carries both;
the selection visits a node first, then its children, then the nodes after it, which is
document order; and the timers are armed in that order. -/
theorem C3_selected_iff_both_markers (doc children rest : Document) (el x : Element)
    (w : World) :
    (matchesSelector alertSelector el = true ↔
        "alert" ∈ el.classList ∧ "alert-dismissible" ∈ el.classList) ∧
    (el ∈ querySelectorAll alertSelector doc ↔
        OccursIn el doc ∧
          "alert" ∈ el.classList ∧ "alert-dismissible" ∈ el.classList) ∧
    (el ∈ querySelectorAll alertSelector doc ↔
        el ∈ preorderList doc ∧
          "alert" ∈ el.classList ∧ "alert-dismissible" ∈ el.classList) ∧
    querySelectorAll alertSelector [] = [] ∧
    querySelectorAll alertSelector (Node.mk x children :: rest) =
      (if "alert" ∈ x.classList ∧ "alert-dismissible" ∈ x.classList then [x] else []) ++
        (querySelectorAll alertSelector children ++ querySelectorAll alertSelector rest) ∧
    preorderList (Node.mk x children :: rest) =
      x :: (preorderList children ++ preorderList rest) ∧
    (querySelectorAll alertSelector doc).Sublist (preorderList doc) ∧
    (armAutoDismiss w).2.timers.map (fun t => t.el) =
        w.timers.map (fun t => t.el) ++
          (querySelectorAll alertSelector w.page.document).map (fun x => x.id) := by
  have hm : ∀ y : Element, matchesSelector alertSelector y = true ↔
      "alert" ∈ y.classList ∧ "alert-dismissible" ∈ y.classList := by
    intro y
    simp [matchesSelector, alertSelector]
  have hmem : el ∈ querySelectorAll alertSelector doc ↔
      el ∈ preorderList doc ∧
        "alert" ∈ el.classList ∧ "alert-dismissible" ∈ el.classList := by
    simp only [querySelectorAll, List.mem_filter, hm]
  have hcons : preorderList (Node.mk x children :: rest) =
      x :: (preorderList children ++ preorderList rest) := by
    simp [preorderList, Node.preorder]
  refine ⟨hm el, ?_, hmem, rfl, ?_, hcons, List.filter_sublist _, ?_⟩
  · rw [hmem]
    constructor
    · rintro ⟨h1, h2⟩
      exact ⟨occursIn_of_mem el doc h1, h2⟩
    · rintro ⟨h1, h2⟩
      exact ⟨mem_of_occursIn el doc h1, h2⟩
  · simp only [querySelectorAll, hcons, List.filter_cons, List.filter_append]
    by_cases h : matchesSelector alertSelector x = true
    · rw [if_pos h, if_pos ((hm x).mp h)]; rfl
    · rw [if_neg h, if_neg (fun h2 => h ((hm x).mpr h2))]; rfl
  · simp [armAutoDismiss_eq, armedTimers_el]

/-- C3 at the sample page: the dismissible alert 3, nested in the plain alert 2 and carrying
a third class, is selected; the plain alert 2 and the element 4 are not; the selection is
the alerts 1 and 3 in document order. -/
theorem C3_witness :
    (⟨3, ["alert-dismissible", "fade", "alert"]⟩ : Element) ∈
      querySelectorAll alertSelector demoDocument ∧
    (⟨2, ["alert"]⟩ : Element) ∉ querySelectorAll alertSelector demoDocument ∧
    querySelectorAll alertSelector demoDocument =
      [⟨1, ["alert", "alert-success", "alert-dismissible"]⟩,
       ⟨3, ["alert-dismissible", "fade", "alert"]⟩] ∧
    preorderList demoDocument =
      [⟨1, ["alert", "alert-success", "alert-dismissible"]⟩, ⟨2, ["alert"]⟩,
       ⟨3, ["alert-dismissible", "fade", "alert"]⟩, ⟨4, ["container"]⟩] :=
  ⟨(C3_selected_iff_both_markers demoDocument [] [] ⟨3, ["alert-dismissible", "fade", "alert"]⟩
      ⟨0, []⟩ (atReady demoPage 0)).2.1.mpr
      ⟨OccursIn.later _ _ (OccursIn.inside _ _ _ (OccursIn.here _ _)),
       by decide, by decide⟩,
   by decide, by decide, by decide⟩

/-- C4: the pending timers of every run are a sublist of the timers armed at ready-time,
and an element that the ready-time scan did not select (in particular one inserted into
the document afterwards, matching or not) never has a pending timer and never appears in
an event. -/
theorem C4_no_timer_for_later_elements (bootstrap : Option Bootstrap) (page : Page)
    (t0 : Nat) (acts : List HostAction) (e : ElemId)
    (hnew : e ∉ elementIds page.document) :
    (run bootstrap (pageLoad page t0) acts).timers.Sublist (pageLoad page t0).timers ∧
    (∀ t ∈ (run bootstrap (pageLoad page t0) acts).timers, t.el ≠ e) ∧
    (∀ ev ∈ (run bootstrap (pageLoad page t0) acts).trace, ev.el ≠ e) := by
  have hnot : e ∉ matchedIds page.document :=
    fun h => hnew ((matchedIds_sublist _).subset h)
  exact ⟨(inv_run bootstrap page t0 acts).sub,
    run_no_timer_for bootstrap page t0 acts e hnot⟩

/-- C4 at the sample page: a dismissible alert (9) appended after the scan gets nothing,
while the two alerts present at ready-time are closed. -/
theorem C4_witness :
    9 ∉ elementIds demoPage.document ∧
    9 ∈ matchedIds demoPageLater.document ∧
    (∀ ev ∈ (run specBootstrap (pageLoad demoPage 100)
        [.mutate demoPageLater, .tick 6000, .fire 0, .fire 0, .fire 0]).trace, ev.el ≠ 9) ∧
    (run specBootstrap (pageLoad demoPage 100)
        [.mutate demoPageLater, .tick 6000, .fire 0, .fire 0, .fire 0]).timers = [] :=
  ⟨by decide, by decide,
   (C4_no_timer_for_later_elements specBootstrap demoPage 100
      [.mutate demoPageLater, .tick 6000, .fire 0, .fire 0, .fire 0] 9 (by decide)).2.2,
   by decide⟩

/-- C5: when no element of the document matches the selector, the listener returns
normally and leaves the whole host state as it was; no timer is pending, and whatever the
host does next and whether or not the widget library is there, the trace stays empty and
no exception reaches the host. -/
theorem C5_no_match_no_effect (bootstrap : Option Bootstrap) (page : Page) (t0 : Nat)
    (acts : List HostAction) (hnone : querySelectorAll alertSelector page.document = []) :
    armAutoDismiss (atReady page t0) = (.normal .undefined, atReady page t0) ∧
    (pageLoad page t0).timers = [] ∧
    (run bootstrap (pageLoad page t0) acts).timers = [] ∧
    (run bootstrap (pageLoad page t0) acts).trace = [] ∧
    (run bootstrap (pageLoad page t0) acts).uncaught = [] := by
  have h0 : (pageLoad page t0).timers = [] := by
    rw [pageLoad_eq, hnone]; rfl
  have hr := run_idle bootstrap acts (pageLoad page t0) h0
  refine ⟨?_, h0, hr.1, ?_, ?_⟩
  · rw [armAutoDismiss_eq]
    simp [atReady, hnone, armedTimers]
  · rw [hr.2.1, pageLoad_eq]
  · rw [hr.2.2, pageLoad_eq]

/-- C5 at the empty document, with `bootstrap` unbound. -/
theorem C5_witness :
    querySelectorAll alertSelector ([] : Document) = [] ∧
    (run none (pageLoad ⟨[], ⟨[], 0⟩⟩ 0) [.tick 5000, .fire 0]).trace = [] ∧
    (run none (pageLoad ⟨[], ⟨[], 0⟩⟩ 0) [.tick 5000, .fire 0]).uncaught = [] :=
  ⟨rfl,
   (C5_no_match_no_effect none ⟨[], ⟨[], 0⟩⟩ 0 [.tick 5000, .fire 0] rfl).2.2.2.1,
   (C5_no_match_no_effect none ⟨[], ⟨[], 0⟩⟩ 0 [.tick 5000, .fire 0] rfl).2.2.2.2⟩

/-- C6: with the widget class of the contract, a lookup always returns an instance, a
second lookup on the same element returns the same instance and leaves the page
(registry included) as the first lookup left it, and a lookup constructs an instance only
when the element had none; so the timer callback requests close on the instance the
element already has and constructs nothing, or constructs exactly one instance when the
element has none and requests close on that one. -/
theorem C6_lookup_idempotent (p : Page) (el : ElemId) (w : World) :
    (∃ i, (specGetOrCreateInstance p el).1 = .ok i ∧
      specGetOrCreateInstance (specGetOrCreateInstance p el).2 el =
        (.ok i, (specGetOrCreateInstance p el).2)) ∧
    (specGetOrCreateInstance p el).2.widgets.created =
      p.widgets.created + (if (p.widgets.lookup el).isSome then 0 else 1) ∧
    (timerCallback specBootstrap el w).1 = .normal .undefined ∧
    (timerCallback specBootstrap el w).2.trace =
      w.trace ++ [Event.getOrCreateInstance el w.now,
        Event.close el ((w.page.widgets.lookup el).getD w.page.widgets.created) w.now] ∧
    (timerCallback specBootstrap el w).2.page.widgets.created =
      w.page.widgets.created + (if (w.page.widgets.lookup el).isSome then 0 else 1) := by
  obtain ⟨i, h1, _, _⟩ := specGetOrCreateInstance_lookup p el
  obtain ⟨j, hj1, _, hj3⟩ := specGetOrCreateInstance_lookup w.page el
  have hout := timerCallback_loaded_outcome specAlert el w
  have hsplit : specGetOrCreateInstance w.page el =
      (.ok j, (specGetOrCreateInstance w.page el).2) := by
    rw [← hj1]
  refine ⟨⟨i, h1, ?_⟩, specGetOrCreateInstance_created p el, ?_, ?_, ?_⟩
  · rw [specGetOrCreateInstance_twice, h1]
  · rw [specBootstrap, hout.1]
    show (match specGetOrCreateInstance w.page el with
      | (.error e, _) => Completion.throw e
      | (.ok i, p1) =>
        match (specClose p1 i).1 with
        | some e => Completion.throw e
        | none => Completion.normal JsValue.undefined) = _
    rw [hsplit]
    rfl
  · rw [timerCallback_trace]
    simp only [callbackEvents, specBootstrap, specAlert, hj1, hj3]
  · rw [specBootstrap, hout.2]
    show (match specGetOrCreateInstance w.page el with
      | (.error _, p1) => p1
      | (.ok i, p1) => (specClose p1 i).2).widgets.created = _
    rw [hsplit]
    show (specClose _ j).2.widgets.created = _
    rw [(specClose_created _ j).2, specGetOrCreateInstance_created]

/-- C7: the timer callback throws exactly when `bootstrap` is unbound, `bootstrap.Alert`
is undefined, the lookup throws, or `close` throws, and then it throws that very
exception; the host step that ran it hands the exception to the default handler and has
consumed the timer, so nothing is retried; the listener returns normally without ever
consulting `bootstrap`. -/
theorem C7_failures_propagate (bootstrap : Option Bootstrap) (api : AlertApi) (el : ElemId)
    (w : World) (k : Nat) :
    timerCallback none el w = (.throw (.referenceError "bootstrap"), w) ∧
    timerCallback (some ⟨none⟩) el w =
      (.throw (.typeError "bootstrap.Alert is undefined"), w) ∧
    (timerCallback (some ⟨some api⟩) el w).1 =
      (match api.getOrCreateInstance w.page el with
       | (.error e, _) => Completion.throw e
       | (.ok i, p1) =>
         match (api.close p1 i).1 with
         | some e => Completion.throw e
         | none => Completion.normal JsValue.undefined) ∧
    ((∃ e, (timerCallback bootstrap el w).1 = .throw e) ↔
      (bootstrap = none ∨ bootstrap = some ⟨none⟩ ∨
        ∃ a, bootstrap = some ⟨some a⟩ ∧
          ((∃ e, (a.getOrCreateInstance w.page el).1 = .error e) ∨
           ∃ i e, (a.getOrCreateInstance w.page el).1 = .ok i ∧
             (a.close (a.getOrCreateInstance w.page el).2 i).1 = some e))) ∧
    (∀ t, w.timers[k]? = some t → t.armedAt + t.delay ≤ w.now →
      (step bootstrap w (.fire k)).timers = w.timers.eraseIdx k ∧
      (step bootstrap w (.fire k)).uncaught =
        w.uncaught ++ (match (timerCallback bootstrap t.el w).1 with
                       | .throw e => [e]
                       | .normal _ => [])) ∧
    (armAutoDismiss w).1 = .normal .undefined := by
  refine ⟨rfl, rfl, (timerCallback_loaded_outcome api el w).1, ?_, ?_, ?_⟩
  · rcases bootstrap with _ | ⟨_ | a⟩
    · simp [timerCallback]
    · simp [timerCallback]
    · rw [(timerCallback_loaded_outcome a el w).1]
      rcases hg : a.getOrCreateInstance w.page el with ⟨r, p1⟩
      cases r with
      | error e => simp [hg]
      | ok i =>
        cases hc : (a.close p1 i).1 with
        | none => simp [hg, hc]
        | some e => simp [hg, hc]
  · intro t hk hdue
    exact ⟨(step_fire_due bootstrap w k t hk hdue).1,
      (step_fire_outcome bootstrap w k t hk hdue).1⟩
  · simp [armAutoDismiss_eq]

/-- C8: take a timer armed at ready-time and any later page from which its element is
gone.  The removal leaves the pending timers as they were; when the delay has elapsed the
scheduler runs that timer, and with the widget class loaded the callback calls
`getOrCreateInstance` on the captured element, on the page as it then is, calls `close`
on the instance returned (nothing more when the lookup throws), and the page afterwards is
whatever the widget class returned.  Whatever `bootstrap` is, the run has the same trace as
the run without the removal, as long as the lookup of the widget class (if there is one)
answers alike on both pages. -/
theorem C8_removed_element_same_calls (bootstrap : Option Bootstrap) (api : AlertApi)
    (page later : Page) (t0 dt k : Nat) (t : Timer)
    (hk : (pageLoad page t0).timers[k]? = some t)
    (_hgone : t.el ∉ elementIds later.document) (hdt : 5000 ≤ dt) :
    t.el ∈ matchedIds page.document ∧
    (run bootstrap (pageLoad page t0) [.mutate later, .tick dt]).timers =
      (pageLoad page t0).timers ∧
    (run bootstrap (pageLoad page t0) [.mutate later, .tick dt, .fire k]).timers =
      (pageLoad page t0).timers.eraseIdx k ∧
    (run bootstrap (pageLoad page t0) [.mutate later, .tick dt, .fire k]).trace.head? =
      some (Event.timerFired t.el (t0 + dt)) ∧
    (run (some ⟨some api⟩) (pageLoad page t0) [.mutate later, .tick dt, .fire k]).trace =
      Event.timerFired t.el (t0 + dt) :: Event.getOrCreateInstance t.el (t0 + dt) ::
        (match (api.getOrCreateInstance later t.el).1 with
         | .ok i => [Event.close t.el i (t0 + dt)]
         | .error _ => []) ∧
    (run (some ⟨some api⟩) (pageLoad page t0) [.mutate later, .tick dt, .fire k]).page =
      (match api.getOrCreateInstance later t.el with
       | (.error _, p1) => p1
       | (.ok i, p1) => (api.close p1 i).2) ∧
    ((∀ a, bootstrap = some ⟨some a⟩ →
        (a.getOrCreateInstance later t.el).1 = (a.getOrCreateInstance page t.el).1) →
      (run bootstrap (pageLoad page t0) [.mutate later, .tick dt, .fire k]).trace =
        (run bootstrap (pageLoad page t0) [.tick dt, .fire k]).trace) := by
  have htm : t ∈ (pageLoad page t0).timers := List.getElem?_mem hk
  obtain ⟨hd, ha⟩ := pageLoad_timers_mem page t0 t htm
  have hnow : (pageLoad page t0).now = t0 := by rw [pageLoad_eq]
  have htr : (pageLoad page t0).trace = [] := by rw [pageLoad_eq]
  have key : ∀ b : Option Bootstrap,
      (run b (pageLoad page t0) [.mutate later, .tick dt, .fire k]).timers =
        (pageLoad page t0).timers.eraseIdx k ∧
      (run b (pageLoad page t0) [.mutate later, .tick dt, .fire k]).trace =
        Event.timerFired t.el (t0 + dt) :: callbackEvents b t.el later (t0 + dt) ∧
      (run b (pageLoad page t0) [.mutate later, .tick dt, .fire k]).page =
        (timerCallback b t.el
          (step b (step b (pageLoad page t0) (.mutate later)) (.tick dt))).2.page := by
    intro b
    have hk2 : (step b (step b (pageLoad page t0) (.mutate later)) (.tick dt)).timers[k]? =
        some t := hk
    have hdue : t.armedAt + t.delay ≤
        (step b (step b (pageLoad page t0) (.mutate later)) (.tick dt)).now := by
      show t.armedAt + t.delay ≤ (pageLoad page t0).now + dt
      omega
    obtain ⟨s1, _, _, s4⟩ := step_fire_due b _ k t hk2 hdue
    obtain ⟨_, s6⟩ := step_fire_outcome b _ k t hk2 hdue
    refine ⟨s1, ?_, s6⟩
    show (step b (step b (step b (pageLoad page t0) (.mutate later)) (.tick dt))
      (.fire k)).trace = _
    rw [s4]
    show (pageLoad page t0).trace ++
      Event.timerFired t.el ((pageLoad page t0).now + dt) ::
        callbackEvents b t.el later ((pageLoad page t0).now + dt) = _
    rw [htr, hnow]
    rfl
  refine ⟨?_, rfl, (key bootstrap).1, ?_, ?_, ?_, ?_⟩
  · rw [← pageLoad_timers_el page t0]
    exact List.mem_map_of_mem _ htm
  · rw [(key bootstrap).2.1]; rfl
  · rw [(key _).2.1]
    simp only [callbackEvents]
    cases (api.getOrCreateInstance later t.el).1 <;> rfl
  · rw [(key _).2.2]
    exact (timerCallback_loaded_outcome api t.el _).2
  · intro hsame
    have hpage : (pageLoad page t0).page = page := by rw [pageLoad_eq]
    have h2 := fire_after_tick_trace bootstrap (pageLoad page t0) dt k t hk
      (by rw [hnow]; omega)
    rw [(key bootstrap).2.1]
    show _ = (step bootstrap (step bootstrap (pageLoad page t0) (.tick dt)) (.fire k)).trace
    rw [h2, htr, hnow, hpage, callbackEvents_congr bootstrap t.el later page _ hsame]
    rfl

/-- C8 at the sample page: element 1 is detached before its timer fires, and the callback
still looks up and closes the widget instance of element 1. -/
theorem C8_witness :
    (pageLoad demoPage 100).timers[0]? = some ⟨1, 5000, 100, 1⟩ ∧
    1 ∉ elementIds (removeList 1 demoDocument) ∧
    (run specBootstrap (pageLoad demoPage 100)
        [.mutate ⟨removeList 1 demoDocument, ⟨[], 0⟩⟩, .tick 5000, .fire 0]).trace =
      [Event.timerFired 1 5100, Event.getOrCreateInstance 1 5100, Event.close 1 0 5100] :=
  ⟨by decide, by decide,
   ((C8_removed_element_same_calls specBootstrap specAlert demoPage
      ⟨removeList 1 demoDocument, ⟨[], 0⟩⟩ 100 5000 0 ⟨1, 5000, 100, 1⟩
      (by decide) (by decide) (by decide)).2.2.2.2.1).trans (by decide)⟩

/-- C9, which fails as stated, in two ways.  At the sample page with a widget class whose
lookup throws for element 1, both timers have fired, element 3 was closed once and the
matched element 1 zero times, not once.  At the page with alert 2 nested in alert 1 and a
widget class that refuses detached elements, both timers fire in either order, and
element 2 is closed once when its timer fires first and never when the timer of element 1
fires first: the close-request of element 2 depends on the order and on what the other
callback did to the page. -/
theorem C9_counterexample :
    (matchedIds demoPage.document = [1, 3] ∧
     (run (some ⟨some (faultyAlert 1)⟩) (pageLoad demoPage 100)
        [.tick 5000, .fire 0, .fire 0]).timers = [] ∧
     closeCount 3 (run (some ⟨some (faultyAlert 1)⟩) (pageLoad demoPage 100)
        [.tick 5000, .fire 0, .fire 0]) = 1 ∧
     closeCount 1 (run (some ⟨some (faultyAlert 1)⟩) (pageLoad demoPage 100)
        [.tick 5000, .fire 0, .fire 0]) = 0) ∧
    (matchedIds nestedPage.document = [1, 2] ∧
     firedCount 2 (run (some ⟨some attachedOnlyAlert⟩) (pageLoad nestedPage 100)
        [.tick 5000, .fire 0, .fire 0]) = 1 ∧
     closeCount 2 (run (some ⟨some attachedOnlyAlert⟩) (pageLoad nestedPage 100)
        [.tick 5000, .fire 0, .fire 0]) = 0 ∧
     firedCount 2 (run (some ⟨some attachedOnlyAlert⟩) (pageLoad nestedPage 100)
        [.tick 5000, .fire 1, .fire 0]) = 1 ∧
     closeCount 2 (run (some ⟨some attachedOnlyAlert⟩) (pageLoad nestedPage 100)
        [.tick 5000, .fire 1, .fire 0]) = 1) := by
  decide

/-- C9 as amended.  In every run, whatever the order of the host steps and whatever the
widget class does, a matched element `e` has one timer, pending or run once; the lookups
for `e` never outnumber the runs of its timer, the close-requests of `e` never outnumber
its lookups, so `e` is closed at most once; with the widget class loaded there is exactly
one lookup for `e` per run of its timer.  A timer run consumes only its own timer,
whatever its callback does, and with the widget class loaded it appends to the trace the
lookup for the captured element followed, exactly when that lookup returns an instance on
the page as it then is, by the close-request on that very instance.  So the close-request
of `e` is settled by the answer of the lookup for `e` at the moment its timer runs: it is
issued once per run when the lookup returns an instance for `e` on every page, and never
when it throws for `e` on every page or the widget class is absent.  With the widget class
of the contract and a well-formed registry the instance returned is registered for the
captured element and for no other. -/
theorem C9_timers_independent (bootstrap : Option Bootstrap) (page : Page) (t0 : Nat)
    (acts : List HostAction) (e : ElemId) (hwf : (elementIds page.document).Nodup)
    (he : e ∈ matchedIds page.document) :
    pendingCount e (run bootstrap (pageLoad page t0) acts) +
      firedCount e (run bootstrap (pageLoad page t0) acts) = 1 ∧
    getCount e (run bootstrap (pageLoad page t0) acts) ≤
      firedCount e (run bootstrap (pageLoad page t0) acts) ∧
    closeCount e (run bootstrap (pageLoad page t0) acts) ≤
      getCount e (run bootstrap (pageLoad page t0) acts) ∧
    closeCount e (run bootstrap (pageLoad page t0) acts) ≤ 1 ∧
    (∀ api, bootstrap = some ⟨some api⟩ →
      getCount e (run bootstrap (pageLoad page t0) acts) =
        firedCount e (run bootstrap (pageLoad page t0) acts)) ∧
    (∀ (w : World) (k : Nat) (t : Timer), w.timers[k]? = some t →
      t.armedAt + t.delay ≤ w.now →
      (step bootstrap w (.fire k)).timers = w.timers.eraseIdx k) ∧
    (∀ (api : AlertApi) (w : World) (k : Nat) (t : Timer),
      w.timers[k]? = some t → t.armedAt + t.delay ≤ w.now →
      (step (some ⟨some api⟩) w (.fire k)).trace =
        w.trace ++ Event.timerFired t.el w.now :: Event.getOrCreateInstance t.el w.now ::
          (match (api.getOrCreateInstance w.page t.el).1 with
           | .ok i => [Event.close t.el i w.now]
           | .error _ => [])) ∧
    (∀ api, bootstrap = some ⟨some api⟩ →
      (∀ p, ∃ i, (api.getOrCreateInstance p e).1 = .ok i) →
      closeCount e (run bootstrap (pageLoad page t0) acts) =
        firedCount e (run bootstrap (pageLoad page t0) acts)) ∧
    ((∀ api, bootstrap = some ⟨some api⟩ →
        ∀ p, ∃ err, (api.getOrCreateInstance p e).1 = .error err) →
      closeCount e (run bootstrap (pageLoad page t0) acts) = 0) ∧
    (∀ (p : Page) (el e2 : ElemId) (i : InstId), p.widgets.WF → e2 ≠ el →
      (specGetOrCreateInstance p el).1 = .ok i →
      (specGetOrCreateInstance p el).2.widgets.lookup el = some i ∧
      (specGetOrCreateInstance p el).2.widgets.lookup e2 ≠ some i) := by
  have hinv := inv_run bootstrap page t0 acts
  have hone : pendingCount e (run bootstrap (pageLoad page t0) acts) +
      firedCount e (run bootstrap (pageLoad page t0) acts) = 1 := by
    rw [hinv.count e]
    exact pageLoad_count_one page t0 e hwf he
  have hg := hinv.get_le e
  have hc := hinv.close_le e
  refine ⟨hone, hg, hc, ?_, ?_, ?_, ?_, ?_, hinv.close_zero e, ?_⟩
  · have h3 : firedCount e (run bootstrap (pageLoad page t0) acts) ≤ 1 := by
      rw [← hone]; exact Nat.le_add_left _ _
    exact (hc.trans hg).trans h3
  · intro api hb
    exact hinv.get_eq api hb e
  · intro w k t hk hdue
    exact (step_fire_due bootstrap w k t hk hdue).1
  · intro api w k t hk hdue
    rw [(step_fire_due _ w k t hk hdue).2.2.2]
    simp only [callbackEvents]
    cases (api.getOrCreateInstance w.page t.el).1 <;> rfl
  · intro api hb hok
    exact hinv.close_eq api hb e hok
  · intro p el e2 i hw hne hi
    exact specGetOrCreateInstance_own p el e2 i hw hne hi

/-- C9 as amended, at the page with nested alerts and a widget class that refuses detached
elements: whichever timer fires first, element 2 is looked up once per run of its timer and
closed at most once. -/
theorem C9_witness :
    (elementIds nestedPage.document).Nodup ∧ 2 ∈ matchedIds nestedPage.document ∧
    closeCount 2 (run (some ⟨some attachedOnlyAlert⟩) (pageLoad nestedPage 100)
        [.tick 5000, .fire 0, .fire 0]) ≤ 1 ∧
    getCount 2 (run (some ⟨some attachedOnlyAlert⟩) (pageLoad nestedPage 100)
        [.tick 5000, .fire 0, .fire 0]) =
      firedCount 2 (run (some ⟨some attachedOnlyAlert⟩) (pageLoad nestedPage 100)
        [.tick 5000, .fire 0, .fire 0]) ∧
    getCount 2 (run (some ⟨some attachedOnlyAlert⟩) (pageLoad nestedPage 100)
        [.tick 5000, .fire 0, .fire 0]) = 1 :=
  ⟨by decide, by decide,
   (C9_timers_independent (some ⟨some attachedOnlyAlert⟩) nestedPage 100
      [.tick 5000, .fire 0, .fire 0] 2 (by decide) (by decide)).2.2.2.1,
   (C9_timers_independent (some ⟨some attachedOnlyAlert⟩) nestedPage 100
      [.tick 5000, .fire 0, .fire 0] 2 (by decide) (by decide)).2.2.2.2.1
      attachedOnlyAlert rfl,
   by decide⟩

/-- C10: the listener returns `undefined` and changes nothing but the timer table: clock,
page (document and widget registry), trace and uncaught exceptions are as before, the
timers pending before are still there, and no lookup or close appears in the trace; in
every run the calls of `getOrCreateInstance` for an element never outnumber the runs of
its timer callback. -/
theorem C10_listener_frame (bootstrap : Option Bootstrap) (w : World) (page : Page)
    (t0 : Nat) (acts : List HostAction) (e : ElemId) :
    (armAutoDismiss w).1 = .normal .undefined ∧
    (armAutoDismiss w).2.page = w.page ∧
    (armAutoDismiss w).2.now = w.now ∧
    (armAutoDismiss w).2.trace = w.trace ∧
    (armAutoDismiss w).2.uncaught = w.uncaught ∧
    w.timers <+: (armAutoDismiss w).2.timers ∧
    getCount e (pageLoad page t0) = 0 ∧
    closeCount e (pageLoad page t0) = 0 ∧
    (pageLoad page t0).page = page ∧
    getCount e (run bootstrap (pageLoad page t0) acts) ≤
      firedCount e (run bootstrap (pageLoad page t0) acts) := by
  refine ⟨?_, ?_, ?_, ?_, ?_, ?_, ?_, ?_, ?_, (inv_run bootstrap page t0 acts).get_le e⟩ <;>
    simp [armAutoDismiss_eq, pageLoad_eq, getCount, closeCount]

end FaceAttendance
